import Mathlib

/-!
# Verification of the Cash Application Engine reconciliation core

A shallow embedding of the matching rules (`app/matching/rules/*.py`), the
score combiner (`app/matching/scoring.py`), the greedy matching engine
(`app/matching/engine.py`) and the journal generator
(`app/journal/generator.py`), together with proofs of the specified
properties.

Conventions of the embedding:
* Python `Decimal` / `float` amounts and scores are modelled as `ℚ`;
  `round(x, 2)` is modelled as `round2` (round half up to two decimals).
* Calendar dates are modelled as day numbers in `ℤ`; Python date
  subtraction `(a - b).days` becomes integer subtraction.
* Nullable columns / attributes are `Option` types; Python string
  truthiness (`None` and `""` are falsy) is made explicit.
* Strings that the rules normalise are handled as `List Char`
  (`String.data`); Python `str.lower` is restricted to its ASCII
  behaviour (`Char.toLower`).
* The external `rapidfuzz.fuzz.token_sort_ratio` (a third-party library,
  not part of the repository) is abstracted as a similarity-function
  parameter `sim`.
* The human-readable `details` strings returned by the rules are elided;
  every branch of every rule returns `max_score = weight`, which the
  embedding keeps in the `RuleScore` structure.
-/

namespace CashApp

/-- Python `round(x, 2)`: round to two decimal places (half up on `ℚ`). -/
def round2 (q : ℚ) : ℚ := (⌊q * 100 + 1 / 2⌋ : ℚ) / 100

/-- Python `a or b` for an optional string field (`None` and `""` are falsy). -/
def pyOr (a : Option String) (b : String) : String :=
  match a with
  | none => b
  | some s => if s = "" then b else s

/-- Python truthiness of an optional string (`None` and `""` are falsy). -/
def pyTruthy (a : Option String) : Bool :=
  match a with
  | none => false
  | some s => !(s == "")

/-- Python `str.strip()` on a character list (leading/trailing whitespace). -/
def trimL (l : List Char) : List Char :=
  ((l.dropWhile Char.isWhitespace).reverse.dropWhile Char.isWhitespace).reverse

/-! ## Configuration (`app/config.py`) -/

/-- `Settings` from `app/config.py`, with its default values. -/
structure Settings where
  auto_match_threshold : ℚ := 85
  manual_review_threshold : ℚ := 60
  reference_match_weight : ℚ := 40
  amount_match_weight : ℚ := 35
  company_match_weight : ℚ := 15
  date_match_weight : ℚ := 10
  amount_tolerance_percent : ℚ := 1 / 100
  default_company_code : String := "1000"
  default_document_type : String := "SA"
  default_gl_account : String := "100000"
  default_currency : String := "EUR"

/-- `get_settings()`: the cached settings instance with all defaults. -/
def get_settings : Settings := {}

/-! ## Data model (`app/models/*.py`) -/

/-- `MatchStatus` enum on bank transactions. -/
inductive MatchStatus where
  | UNMATCHED
  | MATCHED
  | MANUAL_REVIEW
deriving DecidableEq, Repr

/-- `RemittanceStatus` enum on remittance advices. -/
inductive RemittanceStatus where
  | UNMATCHED
  | MATCHED
  | PARTIAL
deriving DecidableEq, Repr

/-- `MatchType` enum on matches. -/
inductive MatchType where
  | AUTO_EXACT
  | AUTO_FUZZY
  | MANUAL
deriving DecidableEq, Repr

/-- `BankTransaction` (the fields the core reads; ids as `ℕ`). -/
structure BankTransaction where
  id : ℕ
  buchungsdatum : Option ℤ
  betrag : Option ℚ
  auftraggeber_empfaenger : Option String
  kundenreferenz : Option String
  verwendungszweck : Option String
  currency : Option String
  match_status : MatchStatus
deriving DecidableEq, Repr

/-- `RemittanceLineItem` (the fields the core reads). -/
structure RemittanceLineItem where
  id : ℕ
  ihre_belegnr : Option String
  referenz : Option String
  zahlbetrag : Option ℚ
deriving DecidableEq, Repr

/-- `RemittanceAdvice` (the fields the core reads, line items inlined). -/
structure RemittanceAdvice where
  id : ℕ
  document_number : Option String
  sender_name : Option String
  document_date : Option ℤ
  total_net_amount : Option ℚ
  currency : Option String
  match_status : RemittanceStatus
  line_items : List RemittanceLineItem
deriving DecidableEq, Repr

/-! ## Reference rule (`app/matching/rules/reference_match.py`) -/

/-- `_normalize`: strip whitespace, remove leading zeros, lowercase.
Falsy input (`None` or `""`) yields the empty string. -/
def refNormalize (value : Option String) : List Char :=
  match value with
  | none => []
  | some s => ((trimL s.data).dropWhile (· == '0')).map Char.toLower

/-- `reference_match.score` on the fields it reads
(`transaction.kundenreferenz`, `transaction.verwendungszweck`,
`remittance.document_number`); returns the `score` value. -/
def reference_score (kundenreferenz verwendungszweck document_number : Option String)
    (weight : ℚ) : ℚ :=
  let ref_bank := refNormalize kundenreferenz
  let ref_remittance := refNormalize document_number
  if ref_bank = [] ∨ ref_remittance = [] then 0
  else if ref_bank = ref_remittance then weight
  else
    let vz := refNormalize verwendungszweck
    if vz ≠ [] ∧ ref_remittance <:+: vz then weight * 0.75
    else if ref_bank <:+: ref_remittance ∨ ref_remittance <:+: ref_bank then
      weight * 0.5
    else 0

/-! ## Amount rule (`app/matching/rules/amount_match.py`) -/

/-- `amount_match.score` on the fields it reads (`transaction.betrag`,
`remittance.total_net_amount`); returns the `score` value. -/
def amount_score (betrag total_net_amount : Option ℚ)
    (weight tolerance_percent : ℚ) : ℚ :=
  match betrag, total_net_amount with
  | none, _ => 0
  | _, none => 0
  | some b, some t =>
    let bank_amount := |b|
    let remittance_amount := |t|
    if remittance_amount = 0 ∧ bank_amount = 0 then weight
    else if remittance_amount = 0 then 0
    else
      let difference := |bank_amount - remittance_amount|
      let pct_diff := difference / remittance_amount
      if difference = 0 then weight
      else if pct_diff ≤ tolerance_percent then
        round2 (weight * (1 - pct_diff / tolerance_percent * 0.5))
      else 0

/-! ## Company rule (`app/matching/rules/company_match.py`) -/

/-- The constant `MIN_SIMILARITY_THRESHOLD` from `company_match.py`. -/
def MIN_SIMILARITY_THRESHOLD : ℚ := 60

/-- The legal-form suffix list iterated by `_normalize_company_name`. -/
def legalSuffixes : List (List Char) :=
  ["gmbh", "ag", "e.v.", "kg", "ohg", "gbr", "mbh", "ug", "se"].map String.data

/-- Python `s[: -n]` for `n ≤ len(s)`: drop the last `n` characters. -/
def dropRightL (l : List Char) (n : ℕ) : List Char := l.take (l.length - n)

/-- One iteration of the suffix-stripping loop in `_normalize_company_name`:
strip a bare trailing suffix, then strip it with each of the separators
`" "`, `", "`, `" & "`. -/
def stripSuffixStep (l : List Char) (sfx : List Char) : List Char :=
  let l1 := if sfx.isSuffixOf l = true then trimL (dropRightL l sfx.length) else l
  List.foldl
    (fun acc sep =>
      let token := sep ++ sfx
      if token.isSuffixOf acc = true then trimL (dropRightL acc token.length) else acc)
    l1 [" ".data, ", ".data, " & ".data]

/-- `_normalize_company_name`: lowercase, trim, strip legal-form suffixes. -/
def normalizeCompanyName (name : Option String) : List Char :=
  match name with
  | none => []
  | some n =>
    let normalized := (trimL n.data).map Char.toLower
    trimL (List.foldl stripSuffixStep normalized legalSuffixes)

/-- `company_match.score` with the external `rapidfuzz token_sort_ratio`
abstracted as the parameter `sim` (the library is outside the repository);
returns the `score` value. -/
def company_score (sim : List Char → List Char → ℚ)
    (auftraggeber_empfaenger sender_name : Option String) (weight : ℚ) : ℚ :=
  let bank_name := normalizeCompanyName auftraggeber_empfaenger
  let remittance_name := normalizeCompanyName sender_name
  if bank_name = [] ∨ remittance_name = [] then 0
  else
    let similarity := sim bank_name remittance_name
    if 90 ≤ similarity then weight
    else if MIN_SIMILARITY_THRESHOLD ≤ similarity then
      round2 (weight * ((similarity - MIN_SIMILARITY_THRESHOLD) / (90 - MIN_SIMILARITY_THRESHOLD)))
    else 0

/-! ## Date rule (`app/matching/rules/date_match.py`) -/

/-- The constant `MAX_DAY_DIFFERENCE` from `date_match.py`. -/
def MAX_DAY_DIFFERENCE : ℤ := 10

/-- `date_match.score` on the fields it reads (`transaction.buchungsdatum`,
`remittance.document_date`); returns the `score` value. -/
def date_score (buchungsdatum document_date : Option ℤ) (weight : ℚ) : ℚ :=
  match buchungsdatum with
  | none => 0
  | some bank_date =>
    match document_date with
    | none => round2 (weight * 0.5)
    | some remittance_date =>
      let day_diff := |bank_date - remittance_date|
      if day_diff = 0 then weight
      else if day_diff ≤ MAX_DAY_DIFFERENCE then
        round2 (weight * (1 - (day_diff : ℚ) / (MAX_DAY_DIFFERENCE : ℚ)))
      else 0

/-! ## Score combiner (`app/matching/scoring.py`) -/

/-- One rule's result dict `{score, max_score}` (`details` elided; every
branch of every rule sets `max_score = weight`). -/
structure RuleScore where
  score : ℚ
  max_score : ℚ
deriving DecidableEq, Repr

/-- `ScoreResult` from `scoring.py` with the four-rule breakdown. -/
structure ScoreResult where
  total_score : ℚ
  max_possible : ℚ
  reference : RuleScore
  amount : RuleScore
  company : RuleScore
  date : RuleScore
deriving DecidableEq, Repr

/-- The `percentage` property of `ScoreResult`. -/
def ScoreResult.percentage (r : ScoreResult) : ℚ :=
  if r.max_possible = 0 then 0 else round2 (r.total_score / r.max_possible * 100)

/-- `score_pair`: run all four rules with the configured weights, sum the
scores and the max-scores (each rounded to two decimals). -/
def score_pair (sim : List Char → List Char → ℚ)
    (transaction : BankTransaction) (remittance : RemittanceAdvice) : ScoreResult :=
  let s := get_settings
  let ref : RuleScore :=
    ⟨reference_score transaction.kundenreferenz transaction.verwendungszweck
        remittance.document_number s.reference_match_weight,
      s.reference_match_weight⟩
  let amt : RuleScore :=
    ⟨amount_score transaction.betrag remittance.total_net_amount
        s.amount_match_weight s.amount_tolerance_percent,
      s.amount_match_weight⟩
  let comp : RuleScore :=
    ⟨company_score sim transaction.auftraggeber_empfaenger remittance.sender_name
        s.company_match_weight,
      s.company_match_weight⟩
  let dt : RuleScore :=
    ⟨date_score transaction.buchungsdatum remittance.document_date
        s.date_match_weight,
      s.date_match_weight⟩
  { total_score := round2 (ref.score + amt.score + comp.score + dt.score)
    max_possible := round2 (ref.max_score + amt.max_score + comp.max_score + dt.max_score)
    reference := ref
    amount := amt
    company := comp
    date := dt }

/-! ## Matching engine (`app/matching/engine.py`) -/

/-- A `MatchCandidate`: a scored transaction/remittance pair, reduced to the
ids and the score result that the greedy walk reads. -/
structure Candidate where
  txnId : ℕ
  remId : ℕ
  score_result : ScoreResult
deriving DecidableEq, Repr

/-- A persisted `Match` row (the fields `_create_match` sets that later code
reads; `match_details` elided). -/
structure MatchRecord where
  transaction_id : ℕ
  remittance_id : ℕ
  confidence_score : ℚ
  match_type : MatchType
deriving DecidableEq, Repr

/-- `_determine_match_type`: `AUTO_EXACT` when the reference rule scored its
full weight and that weight is positive, else `AUTO_FUZZY`. -/
def determine_match_type (score_result : ScoreResult) : MatchType :=
  if score_result.reference.score = score_result.reference.max_score ∧
      0 < score_result.reference.max_score then
    MatchType.AUTO_EXACT
  else MatchType.AUTO_FUZZY

/-- The mutable state of the greedy-assignment loop in `run_matching`:
the consumed-id sets, the created matches, the per-record statuses
(as functions of the ids) and the two counters. -/
structure EngineState where
  matched_txn_ids : List ℕ
  matched_rem_ids : List ℕ
  created_matches : List MatchRecord
  txn_status : ℕ → MatchStatus
  rem_status : ℕ → RemittanceStatus
  auto_matched : ℕ
  manual_review : ℕ

/-- One iteration of the greedy loop in `run_matching` (lines 139-180):
skip when either side is consumed, otherwise classify by thresholds. -/
def greedyStep (s : Settings) (st : EngineState) (c : Candidate) : EngineState :=
  if c.txnId ∈ st.matched_txn_ids ∨ c.remId ∈ st.matched_rem_ids then st
  else if s.auto_match_threshold ≤ c.score_result.total_score then
    { matched_txn_ids := c.txnId :: st.matched_txn_ids
      matched_rem_ids := c.remId :: st.matched_rem_ids
      created_matches := st.created_matches ++
        [⟨c.txnId, c.remId, c.score_result.total_score, determine_match_type c.score_result⟩]
      txn_status := Function.update st.txn_status c.txnId MatchStatus.MATCHED
      rem_status := Function.update st.rem_status c.remId RemittanceStatus.MATCHED
      auto_matched := st.auto_matched + 1
      manual_review := st.manual_review }
  else if s.manual_review_threshold ≤ c.score_result.total_score then
    { matched_txn_ids := c.txnId :: st.matched_txn_ids
      matched_rem_ids := c.remId :: st.matched_rem_ids
      created_matches := st.created_matches ++
        [⟨c.txnId, c.remId, c.score_result.total_score, MatchType.AUTO_FUZZY⟩]
      txn_status := Function.update st.txn_status c.txnId MatchStatus.MANUAL_REVIEW
      rem_status := st.rem_status
      auto_matched := st.auto_matched
      manual_review := st.manual_review + 1 }
  else st

/-- The whole greedy walk of `run_matching` over the ranked candidate list. -/
def run_greedy (s : Settings) (st : EngineState) (cs : List Candidate) : EngineState :=
  cs.foldl (greedyStep s) st

/-- The state `run_matching` starts its greedy walk from: empty consumed
sets, no matches, the statuses as loaded, zero counters. -/
def initEngineState (f : ℕ → MatchStatus) (g : ℕ → RemittanceStatus) : EngineState :=
  { matched_txn_ids := []
    matched_rem_ids := []
    created_matches := []
    txn_status := f
    rem_status := g
    auto_matched := 0
    manual_review := 0 }

/-! ## Journal generator (`app/journal/generator.py`) -/

/-- A `JournalEntry` row as built by the generator. -/
structure JournalEntry where
  match_id : Option ℕ
  remittance_line_id : Option ℕ
  company_code : String
  posting_date : Option ℤ
  document_date : Option ℤ
  document_type : String
  line_number : ℕ
  gl_account : String
  debit : Option ℚ
  credit : Option ℚ
  currency : String
  item_text : String
deriving DecidableEq, Repr

/-- A `Match` row as the generator loads it (with its transaction and its
remittance eager-loaded). -/
structure MatchRow where
  id : ℕ
  transaction : BankTransaction
  remittance : RemittanceAdvice
deriving DecidableEq, Repr

/-- The backing store as the generator sees it. -/
structure Store where
  payments : List BankTransaction
  match_rows : List MatchRow
  entries : List JournalEntry
deriving DecidableEq, Repr

/-- `GenerationResult` (error list reduced to its length). -/
structure GenerationResult where
  entries_created : ℕ
  matches_processed : ℕ
  unmatched_processed : ℕ
  errors : ℕ
deriving DecidableEq, Repr

/-- `_determine_debit_credit`: negative bank amount → credit, else debit. -/
def determine_debit_credit (bank_betrag amount : ℚ) : Option ℚ × Option ℚ :=
  if bank_betrag < 0 then (none, some amount)
  else (some amount, none)

/-- The `item_text` built by `_create_entry_from_line_item`:
`"{ihre_belegnr}/{referenz}"` from the truthy parts, else `"Match-{id}"`. -/
def line_item_text (matchId : ℕ) (li : RemittanceLineItem) : String :=
  let parts :=
    (if pyTruthy li.ihre_belegnr then [li.ihre_belegnr.getD ""] else []) ++
      (if pyTruthy li.referenz then [li.referenz.getD ""] else [])
  if parts = [] then "Match-" ++ toString matchId
  else String.intercalate "/" parts

/-- `_create_entry_from_line_item`. Returns `none` when Python would raise
(`abs(None)` on a missing `zahlbetrag`, or `None < 0` on a missing
`betrag`); the caller catches that per match. -/
def create_entry_from_line_item (s : Settings) (m : MatchRow)
    (li : RemittanceLineItem) (line_number : ℕ) : Option JournalEntry :=
  match li.zahlbetrag, m.transaction.betrag with
  | some z, some b =>
    let amount := |z|
    let dc := determine_debit_credit b amount
    some
      { match_id := some m.id
        remittance_line_id := some li.id
        company_code := s.default_company_code
        posting_date := m.transaction.buchungsdatum
        document_date := m.transaction.buchungsdatum
        document_type := s.default_document_type
        line_number := line_number
        gl_account := s.default_gl_account
        debit := dc.1
        credit := dc.2
        currency := pyOr m.transaction.currency s.default_currency
        item_text := line_item_text m.id li }
  | _, _ => none

/-- `_create_entry_from_transaction`. Returns `none` when Python would raise
(`abs(None)` on a missing `betrag`); the caller catches that per record. -/
def create_entry_from_transaction (s : Settings) (t : BankTransaction)
    (line_number : ℕ) : Option JournalEntry :=
  match t.betrag with
  | none => none
  | some b =>
    let amount := |b|
    let dc := determine_debit_credit b amount
    some
      { match_id := none
        remittance_line_id := none
        company_code := s.default_company_code
        posting_date := t.buchungsdatum
        document_date := t.buchungsdatum
        document_type := s.default_document_type
        line_number := line_number
        gl_account := s.default_gl_account
        debit := dc.1
        credit := dc.2
        currency := pyOr t.currency s.default_currency
        item_text := pyOr t.kundenreferenz (pyOr t.verwendungszweck "") }

/-- The inner `for line_item in remittance.line_items` loop of the matched
path: entries created, next line number, and whether the loop completed
without an exception (a failure keeps the entries added so far). -/
def entries_for_items (s : Settings) (m : MatchRow) :
    List RemittanceLineItem → ℕ → List JournalEntry × ℕ × Bool
  | [], ln => ([], ln, true)
  | li :: rest, ln =>
    match create_entry_from_line_item s m li ln with
    | none => ([], ln, false)
    | some e =>
      let r := entries_for_items s m rest (ln + 1)
      (e :: r.1, r.2.1, r.2.2)

/-- The matched path of `generate_journal_entries`: entries, next line
number, `matches_processed`, number of per-match errors. -/
def matched_path (s : Settings) :
    List MatchRow → ℕ → List JournalEntry × ℕ × ℕ × ℕ
  | [], ln => ([], ln, 0, 0)
  | m :: rest, ln =>
    let r1 := entries_for_items s m m.remittance.line_items ln
    let r2 := matched_path s rest r1.2.1
    (r1.1 ++ r2.1, r2.2.1,
      (if r1.2.2 then r2.2.2.1 + 1 else r2.2.2.1),
      (if r1.2.2 then r2.2.2.2 else r2.2.2.2 + 1))

/-- The duplicate guard of the unmatched path: an existing entry with
`item_text == (kundenreferenz or "")`, the same posting date, and no
match reference. -/
def is_existing_for (t : BankTransaction) (e : JournalEntry) : Bool :=
  decide (e.item_text = pyOr t.kundenreferenz "" ∧
    e.posting_date = t.buchungsdatum ∧ e.match_id = none)

/-- The unmatched path of `generate_journal_entries` over the unmatched
transactions, carrying the entries visible to the duplicate-guard query:
entries, next line number, `unmatched_processed`, per-record errors. -/
def unmatched_path (s : Settings) :
    List BankTransaction → List JournalEntry → ℕ → List JournalEntry × ℕ × ℕ × ℕ
  | [], _, ln => ([], ln, 0, 0)
  | t :: rest, prior, ln =>
    if prior.any (is_existing_for t) then unmatched_path s rest prior ln
    else
      match create_entry_from_transaction s t ln with
      | none =>
        let r := unmatched_path s rest prior ln
        (r.1, r.2.1, r.2.2.1, r.2.2.2 + 1)
      | some e =>
        let r := unmatched_path s rest (prior ++ [e]) (ln + 1)
        (e :: r.1, r.2.1, r.2.2.1 + 1, r.2.2.2)

/-- `generate_journal_entries`: matched path over the matches without
existing entries, then (optionally) the unmatched path, one shared line
counter starting at 1; returns the result summary and the updated store. -/
def generate_journal_entries (store : Store) (include_unmatched : Bool) :
    GenerationResult × Store :=
  let s := get_settings
  let to_process :=
    store.match_rows.filter (fun m => !(store.entries.any (fun e => e.match_id == some m.id)))
  let r1 := matched_path s to_process 1
  let r2 :=
    if include_unmatched then
      unmatched_path s (store.payments.filter (fun t => t.match_status == MatchStatus.UNMATCHED))
        (store.entries ++ r1.1) r1.2.1
    else ([], r1.2.1, 0, 0)
  let new_entries := r1.1 ++ r2.1
  (⟨new_entries.length, r1.2.2.1, r2.2.2.1, r1.2.2.2 + r2.2.2.2⟩,
    { payments := store.payments
      match_rows := store.match_rows
      entries := store.entries ++ new_entries })

/-! ## Arithmetic helper lemmas -/

/-- A rational that is a whole number of hundredths. -/
def IsCenti (q : ℚ) : Prop := ∃ n : ℤ, q = (n : ℚ) / 100

theorem isCenti_round2 (q : ℚ) : IsCenti (round2 q) := ⟨⌊q * 100 + 1 / 2⌋, rfl⟩

theorem isCenti_intCast (n : ℤ) : IsCenti ((n : ℚ)) :=
  ⟨100 * n, by push_cast; ring⟩

theorem IsCenti.add {a b : ℚ} (ha : IsCenti a) (hb : IsCenti b) : IsCenti (a + b) := by
  obtain ⟨n, rfl⟩ := ha
  obtain ⟨m, rfl⟩ := hb
  exact ⟨n + m, by push_cast; ring⟩

theorem round2_eq_self {q : ℚ} (h : IsCenti q) : round2 q = q := by
  obtain ⟨n, rfl⟩ := h
  unfold round2
  have h1 : (n : ℚ) / 100 * 100 + 1 / 2 = (n : ℚ) + 1 / 2 := by
    field_simp
  rw [h1, Int.floor_int_add]
  norm_num

theorem round2_nonneg {q : ℚ} (h : 0 ≤ q) : 0 ≤ round2 q := by
  unfold round2
  have h1 : (0 : ℤ) ≤ ⌊q * 100 + 1 / 2⌋ := Int.floor_nonneg.mpr (by linarith)
  positivity

theorem round2_le {q c : ℚ} (hc : IsCenti c) (h : q ≤ c) : round2 q ≤ c := by
  obtain ⟨n, rfl⟩ := hc
  unfold round2
  have h1 : q * 100 + 1 / 2 ≤ (n : ℚ) + 1 / 2 := by
    have h2 : q * 100 ≤ (n : ℚ) / 100 * 100 :=
      mul_le_mul_of_nonneg_right h (by norm_num)
    have h3 : (n : ℚ) / 100 * 100 = (n : ℚ) := by field_simp
    linarith
  have h4 : ⌊q * 100 + 1 / 2⌋ ≤ n := by
    have h5 := Int.floor_le_floor h1
    rwa [Int.floor_int_add, show ⌊(1 / 2 : ℚ)⌋ = 0 by norm_num, add_zero] at h5
  have h6 : (⌊q * 100 + 1 / 2⌋ : ℚ) ≤ (n : ℚ) := Int.cast_le.mpr h4
  linarith

/-! ## C4: the amount rule -/

/-- **C4.** For every payment and remittance with both amounts present, the
amount rule returns: full weight when both absolute amounts are zero; 0 when
the remittance amount is zero and the payment amount is non-zero; full weight
on exact equality of absolute amounts; `weight × (1 − 0.5 × diff/tolerance)`
rounded to 2 decimals when the relative difference `diff` is positive and
`≤` the tolerance; and 0 when `diff` exceeds the tolerance. A missing amount
on either side yields score 0. -/
theorem amount_rule_spec (b t w tol : ℚ) :
    amount_score none (some t) w tol = 0 ∧
    amount_score (some b) none w tol = 0 ∧
    amount_score none none w tol = 0 ∧
    (|b| = 0 ∧ |t| = 0 → amount_score (some b) (some t) w tol = w) ∧
    (|t| = 0 → |b| ≠ 0 → amount_score (some b) (some t) w tol = 0) ∧
    (|b| = |t| → amount_score (some b) (some t) w tol = w) ∧
    (|t| ≠ 0 → 0 < |(|b| - |t|)| / |t| → |(|b| - |t|)| / |t| ≤ tol →
      amount_score (some b) (some t) w tol =
        round2 (w * (1 - |(|b| - |t|)| / |t| / tol * 0.5))) ∧
    (|t| ≠ 0 → 0 < tol → tol < |(|b| - |t|)| / |t| →
      amount_score (some b) (some t) w tol = 0) := by
  have ht0 : 0 ≤ |t| := abs_nonneg t
  refine ⟨rfl, rfl, rfl, ?_, ?_, ?_, ?_, ?_⟩
  · rintro ⟨hb, ht⟩
    simp [amount_score, hb, ht]
  · intro ht hb
    simp [amount_score, ht, hb]
  · intro hbt
    by_cases ht : |t| = 0
    · have hb : |b| = 0 := by rw [hbt, ht]
      simp [amount_score, hb, ht]
    · have hd : |(|b| - |t|)| = 0 := by rw [hbt]; simp
      simp [amount_score, ht, hd]
  · intro ht hpos htol
    have hd : ¬ |(|b| - |t|)| = 0 := by
      intro h0
      rw [h0, zero_div] at hpos
      exact lt_irrefl 0 hpos
    simp [amount_score, ht, hd, htol]
  · intro ht htolpos hgt
    have hd : ¬ |(|b| - |t|)| = 0 := by
      intro h0
      rw [h0, zero_div] at hgt
      linarith
    have hnot : ¬ |(|b| - |t|)| / |t| ≤ tol := not_le.mpr hgt
    simp [amount_score, ht, hd, hnot]

/-- Witness for C4 at the spec's worked examples: 1000 vs 1000 → 35,
1005 vs 1000 at 1% tolerance → 26.25, 1200 vs 1000 → 0, missing → 0. -/
theorem amount_rule_spec_witness :
    amount_score (some 1000) (some 1000) 35 (1 / 100) = 35 ∧
    amount_score (some 1005) (some 1000) 35 (1 / 100) = 26.25 ∧
    amount_score (some 1200) (some 1000) 35 (1 / 100) = 0 ∧
    amount_score none (some 1000) 35 (1 / 100) = 0 := by
  refine ⟨?_, ?_, ?_, ?_⟩
  · exact (amount_rule_spec 1000 1000 35 (1 / 100)).2.2.2.2.2.1 (by norm_num)
  · have h := (amount_rule_spec 1005 1000 35 (1 / 100)).2.2.2.2.2.2.1
      (by norm_num) (by norm_num) (by norm_num)
    rw [h]
    norm_num [round2]
  · exact (amount_rule_spec 1200 1000 35 (1 / 100)).2.2.2.2.2.2.2
      (by norm_num) (by norm_num) (by norm_num)
  · exact (amount_rule_spec 0 1000 35 (1 / 100)).1

/-! ## C5: the reference rule -/

/-- **C5.** For every payment and remittance, the reference rule normalizes
both references (trim, strip leading zeros, lowercase) and returns: full
weight on normalized equality; else 75% of weight when the normalized
document number is a substring of the normalized free-text purpose; else 50%
of weight when one normalized reference is a substring of the other; else 0;
and 0 (never an error) when either normalized reference is empty. -/
theorem reference_rule_spec (k v d : Option String) (w : ℚ) :
    (refNormalize k = [] ∨ refNormalize d = [] → reference_score k v d w = 0) ∧
    (refNormalize k ≠ [] → refNormalize d ≠ [] → refNormalize k = refNormalize d →
      reference_score k v d w = w) ∧
    (refNormalize k ≠ [] → refNormalize d ≠ [] → refNormalize k ≠ refNormalize d →
      refNormalize d <:+: refNormalize v →
      reference_score k v d w = w * 0.75) ∧
    (refNormalize k ≠ [] → refNormalize d ≠ [] → refNormalize k ≠ refNormalize d →
      ¬ refNormalize d <:+: refNormalize v →
      (refNormalize k <:+: refNormalize d ∨ refNormalize d <:+: refNormalize k) →
      reference_score k v d w = w * 0.5) ∧
    (refNormalize k ≠ [] → refNormalize d ≠ [] → refNormalize k ≠ refNormalize d →
      ¬ refNormalize d <:+: refNormalize v →
      ¬ (refNormalize k <:+: refNormalize d ∨ refNormalize d <:+: refNormalize k) →
      reference_score k v d w = 0) := by
  refine ⟨?_, ?_, ?_, ?_, ?_⟩
  · intro h
    simp [reference_score, h]
  · intro hk hd heq
    simp [reference_score, hk, hd, heq]
  · intro hk hd hne hin
    have hvz : refNormalize v ≠ [] := by
      intro h0
      rw [h0] at hin
      exact hd (List.eq_nil_of_infix_nil hin)
    simp [reference_score, hk, hd, hne, hin, hvz]
  · intro hk hd hne hnin hsub
    simp [reference_score, hk, hd, hne, hnin, hsub]
  · intro hk hd hne hnin hnsub
    simp [reference_score, hk, hd, hne, hnin, hnsub]

/-- Witness for C5: "0038393" vs "38393" normalize equal → 40; a document
number inside the free-text purpose → 30; a one-sided substring → 20;
a missing reference → 0. -/
theorem reference_rule_spec_witness :
    reference_score (some "0038393") none (some "38393") 40 = 40 ∧
    reference_score (some "99") (some "pay 123") (some "123") 40 = 30 ∧
    reference_score (some "12") none (some "123") 40 = 20 ∧
    reference_score none none (some "1") 40 = 0 := by
  refine ⟨?_, ?_, ?_, ?_⟩
  · exact (reference_rule_spec (some "0038393") none (some "38393") 40).2.1
      (by decide) (by decide) (by decide)
  · have h := (reference_rule_spec (some "99") (some "pay 123") (some "123") 40).2.2.1
      (by decide) (by decide) (by decide) (by decide)
    rw [h]
    norm_num
  · have h := (reference_rule_spec (some "12") none (some "123") 40).2.2.2.1
      (by decide) (by decide) (by decide) (by decide) (by decide)
    rw [h]
    norm_num
  · exact (reference_rule_spec none none (some "1") 40).1 (Or.inl (by decide))

/-! ## C9: the date rule -/

/-- **C9.** For every payment and remittance, the date rule returns: 0 when
the payment's booking date is missing; 50% of weight (rounded to 2 decimals)
when the payment date is present but the remittance's document date is
missing; full weight on the same calendar day; `weight × (1 − gap/10)`
rounded to 2 decimals when the absolute gap in days is between 1 and 10
inclusive; and 0 when the gap exceeds 10 days. -/
theorem date_rule_spec (bd rd : ℤ) (w : ℚ) :
    date_score none (some rd) w = 0 ∧
    date_score none none w = 0 ∧
    date_score (some bd) none w = round2 (w * 0.5) ∧
    (bd = rd → date_score (some bd) (some rd) w = w) ∧
    (1 ≤ |bd - rd| → |bd - rd| ≤ 10 →
      date_score (some bd) (some rd) w = round2 (w * (1 - (|bd - rd| : ℚ) / 10))) ∧
    (10 < |bd - rd| → date_score (some bd) (some rd) w = 0) := by
  refine ⟨rfl, rfl, rfl, ?_, ?_, ?_⟩
  · intro h
    simp [date_score, h]
  · intro h1 h10
    have hne : ¬ |bd - rd| = 0 := by omega
    simp [date_score, MAX_DAY_DIFFERENCE, hne, h10]
  · intro h10
    have hne : ¬ |bd - rd| = 0 := by omega
    have hgt : ¬ |bd - rd| ≤ MAX_DAY_DIFFERENCE := by
      simp [MAX_DAY_DIFFERENCE]
      omega
    simp [date_score, hne, hgt]

/-- Witness for C9: missing remittance date → 5 of weight 10; same day →
10; a 5-day gap → 5; a 18-day gap → 0; a missing payment date → 0. -/
theorem date_rule_spec_witness :
    date_score (some 5) none 10 = 5 ∧
    date_score (some 5) (some 5) 10 = 10 ∧
    date_score (some 7) (some 2) 10 = 5 ∧
    date_score (some 20) (some 2) 10 = 0 ∧
    date_score none (some 2) 10 = 0 := by
  refine ⟨?_, ?_, ?_, ?_, ?_⟩
  · have h := (date_rule_spec 5 5 10).2.2.1
    rw [h]
    norm_num [round2]
  · exact (date_rule_spec 5 5 10).2.2.2.1 rfl
  · have h := (date_rule_spec 7 2 10).2.2.2.2.1 (by decide) (by decide)
    rw [h]
    norm_num [round2]
  · exact (date_rule_spec 20 2 10).2.2.2.2.2 (by decide)
  · exact (date_rule_spec 0 2 10).1

/-! ## C10: all-zero references normalize to empty -/

/-- **C10.** For every payment customer reference and every remittance
document number consisting only of zero digits (optionally with surrounding
whitespace), normalization strips everything, so the reference rule treats
the reference as missing and returns 0 — even when the raw values are
identical — rather than a full-weight exact match. -/
theorem reference_rule_zero_refs (s t : String) (v : Option String) (w : ℚ)
    (hs : ∀ c ∈ trimL s.data, c = '0') (ht : ∀ c ∈ trimL t.data, c = '0') :
    reference_score (some s) v (some t) w = 0 := by
  have hnorm : ∀ u : String, (∀ c ∈ trimL u.data, c = '0') →
      refNormalize (some u) = [] := by
    intro u hu
    have hdrop : (trimL u.data).dropWhile (· == '0') = [] := by
      rw [List.dropWhile_eq_nil_iff]
      intro x hx
      simp [hu x hx]
    simp [refNormalize, hdrop]
  exact (reference_rule_spec (some s) v (some t) w).1 (Or.inl (hnorm s hs))

/-- Witness for C10 at the identical raw values "000" vs "000" and at
"0" vs " 0 ": both score 0 despite raw equality up to whitespace. -/
theorem reference_rule_zero_refs_witness :
    reference_score (some "000") none (some "000") 40 = 0 ∧
    reference_score (some "0") none (some " 0 ") 40 = 0 := by
  constructor
  · exact reference_rule_zero_refs "000" "000" none 40 (by decide) (by decide)
  · exact reference_rule_zero_refs "0" " 0 " none 40 (by decide) (by decide)

/-! ## C6: the debit/credit invariant -/

/-- **C6.** For every posting created by the generator, exactly one of
{debit, credit} is populated: a negative originating payment amount yields
`credit = |amount|` and `debit = none`, a non-negative one yields
`debit = |amount|` and `credit = none`; the choice is keyed on the original
payment's signed amount on both the matched and the unmatched path. -/
theorem debit_credit_spec (s : Settings) (t : BankTransaction) (m : MatchRow)
    (li : RemittanceLineItem) (ln ln' : ℕ) (e e' : JournalEntry) (b amount z : ℚ) :
    (b < 0 → determine_debit_credit b amount = (none, some amount)) ∧
    (0 ≤ b → determine_debit_credit b amount = (some amount, none)) ∧
    (create_entry_from_transaction s t ln = some e →
      ((e.debit = none ∧ e.credit ≠ none) ∨ (e.credit = none ∧ e.debit ≠ none)) ∧
      (t.betrag = some b →
        (b < 0 → e.credit = some |b| ∧ e.debit = none) ∧
        (0 ≤ b → e.debit = some |b| ∧ e.credit = none))) ∧
    (create_entry_from_line_item s m li ln' = some e' →
      ((e'.debit = none ∧ e'.credit ≠ none) ∨ (e'.credit = none ∧ e'.debit ≠ none)) ∧
      (m.transaction.betrag = some b → li.zahlbetrag = some z →
        (b < 0 → e'.credit = some |z| ∧ e'.debit = none) ∧
        (0 ≤ b → e'.debit = some |z| ∧ e'.credit = none))) := by
  refine ⟨?_, ?_, ?_, ?_⟩
  · intro hb
    simp [determine_debit_credit, hb]
  · intro hb
    simp [determine_debit_credit, not_lt.mpr hb]
  · intro he
    cases hbet : t.betrag with
    | none =>
      simp only [create_entry_from_transaction, hbet] at he
      exact absurd he (by simp)
    | some b0 =>
      simp only [create_entry_from_transaction, hbet, Option.some.injEq] at he
      subst he
      by_cases hb0 : b0 < 0
      · constructor
        · exact Or.inl (by simp [determine_debit_credit, hb0])
        · intro hbb
          obtain rfl : b0 = b := Option.some.inj hbb
          exact ⟨fun _ => by simp [determine_debit_credit, hb0],
            fun hge => absurd hb0 (not_lt.mpr hge)⟩
      · constructor
        · exact Or.inr (by simp [determine_debit_credit, hb0])
        · intro hbb
          obtain rfl : b0 = b := Option.some.inj hbb
          exact ⟨fun hlt => absurd hlt hb0,
            fun _ => by simp [determine_debit_credit, hb0]⟩
  · intro he
    cases hz : li.zahlbetrag with
    | none =>
      simp only [create_entry_from_line_item, hz] at he
      exact absurd he (by simp)
    | some z0 =>
      cases hbet : m.transaction.betrag with
      | none =>
        simp only [create_entry_from_line_item, hz, hbet] at he
        exact absurd he (by simp)
      | some b0 =>
        simp only [create_entry_from_line_item, hz, hbet, Option.some.injEq] at he
        subst he
        by_cases hb0 : b0 < 0
        · constructor
          · exact Or.inl (by simp [determine_debit_credit, hb0])
          · intro hbb hzz
            obtain rfl : b0 = b := Option.some.inj hbb
            obtain rfl : z0 = z := Option.some.inj hzz
            exact ⟨fun _ => by simp [determine_debit_credit, hb0],
              fun hge => absurd hb0 (not_lt.mpr hge)⟩
        · constructor
          · exact Or.inr (by simp [determine_debit_credit, hb0])
          · intro hbb hzz
            obtain rfl : b0 = b := Option.some.inj hbb
            obtain rfl : z0 = z := Option.some.inj hzz
            exact ⟨fun hlt => absurd hlt hb0,
              fun _ => by simp [determine_debit_credit, hb0]⟩

/-- An outgoing payment of −250.00 (the spec's worked example). -/
def paymentOut250 : BankTransaction :=
  { id := 7
    buchungsdatum := some 100
    betrag := some (-250)
    auftraggeber_empfaenger := none
    kundenreferenz := some "REF-1"
    verwendungszweck := none
    currency := none
    match_status := MatchStatus.UNMATCHED }

/-- The posting the generator builds from `paymentOut250`. -/
def entryOut250 : JournalEntry :=
  { match_id := none
    remittance_line_id := none
    company_code := "1000"
    posting_date := some 100
    document_date := some 100
    document_type := "SA"
    line_number := 1
    gl_account := "100000"
    debit := none
    credit := some 250
    currency := "EUR"
    item_text := "REF-1" }

/-- Witness for C6: the posting derived from the −250.00 payment has
`credit = 250` and `debit = none`. -/
theorem debit_credit_spec_witness :
    create_entry_from_transaction get_settings paymentOut250 1 = some entryOut250 ∧
    entryOut250.credit = some 250 ∧ entryOut250.debit = none := by
  have he : create_entry_from_transaction get_settings paymentOut250 1 = some entryOut250 := by
    simp [create_entry_from_transaction, paymentOut250, get_settings,
      determine_debit_credit, entryOut250, pyOr]
  have h := (((debit_credit_spec get_settings paymentOut250
      ⟨0, paymentOut250, ⟨0, none, none, none, none, none, RemittanceStatus.UNMATCHED, []⟩⟩
      ⟨0, none, none, none⟩ 1 1 entryOut250 entryOut250 (-250) 0 0).2.2.1 he).2 rfl).1
      (by norm_num)
  refine ⟨he, ?_, h.2⟩
  rw [h.1]
  norm_num

/-! ## Per-rule bounds and granularity lemmas -/

theorem reference_score_bounds (k v d : Option String) {w : ℚ} (hw : 0 ≤ w) :
    0 ≤ reference_score k v d w ∧ reference_score k v d w ≤ w := by
  simp only [reference_score]
  split_ifs <;> constructor <;> linarith

theorem amount_score_bounds (b t : Option ℚ) {w tol : ℚ}
    (hw : 0 ≤ w) (hwc : IsCenti w) (htol : 0 < tol) :
    0 ≤ amount_score b t w tol ∧ amount_score b t w tol ≤ w := by
  cases b with
  | none =>
    simp only [amount_score]
    exact ⟨le_refl 0, hw⟩
  | some b0 =>
    cases t with
    | none =>
      simp only [amount_score]
      exact ⟨le_refl 0, hw⟩
    | some t0 =>
      simp only [amount_score]
      split_ifs with h1 h2 h3 h4
      · exact ⟨hw, le_refl w⟩
      · exact ⟨le_refl 0, hw⟩
      · exact ⟨hw, le_refl w⟩
      · have hrem : 0 < |t0| := lt_of_le_of_ne (abs_nonneg t0) (Ne.symm h2)
        have hpct0 : 0 ≤ |(|b0| - |t0|)| / |t0| :=
          div_nonneg (abs_nonneg _) (le_of_lt hrem)
        have hx0 : 0 ≤ |(|b0| - |t0|)| / |t0| / tol := div_nonneg hpct0 (le_of_lt htol)
        have hx1 : |(|b0| - |t0|)| / |t0| / tol ≤ 1 := by
          rw [div_le_one htol]
          exact h4
        have hv0 : 0 ≤ w * (1 - |(|b0| - |t0|)| / |t0| / tol * 0.5) := by nlinarith
        have hv1 : w * (1 - |(|b0| - |t0|)| / |t0| / tol * 0.5) ≤ w := by nlinarith
        exact ⟨round2_nonneg hv0, round2_le hwc hv1⟩
      · exact ⟨le_refl 0, hw⟩

theorem company_score_bounds (sim : List Char → List Char → ℚ)
    (n1 n2 : Option String) {w : ℚ} (hw : 0 ≤ w) (hwc : IsCenti w) :
    0 ≤ company_score sim n1 n2 w ∧ company_score sim n1 n2 w ≤ w := by
  simp only [company_score, MIN_SIMILARITY_THRESHOLD]
  split_ifs with h1 h2 h3
  · exact ⟨le_refl 0, hw⟩
  · exact ⟨hw, le_refl w⟩
  · have h90 : sim (normalizeCompanyName n1) (normalizeCompanyName n2) < 90 := not_le.mp h2
    have hv0 : 0 ≤ w * ((sim (normalizeCompanyName n1) (normalizeCompanyName n2) - 60) / (90 - 60)) := by
      have : 0 ≤ (sim (normalizeCompanyName n1) (normalizeCompanyName n2) - 60) / (90 - 60) := by
        apply div_nonneg <;> linarith
      exact mul_nonneg hw this
    have hv1 : w * ((sim (normalizeCompanyName n1) (normalizeCompanyName n2) - 60) / (90 - 60)) ≤ w := by
      have hr1 : (sim (normalizeCompanyName n1) (normalizeCompanyName n2) - 60) / (90 - 60) ≤ 1 := by
        rw [div_le_one (by norm_num : (0 : ℚ) < 90 - 60)]
        linarith
      have hr0 : 0 ≤ (sim (normalizeCompanyName n1) (normalizeCompanyName n2) - 60) / (90 - 60) := by
        apply div_nonneg <;> linarith
      nlinarith
    exact ⟨round2_nonneg hv0, round2_le hwc hv1⟩
  · exact ⟨le_refl 0, hw⟩

theorem date_score_bounds (bd rd : Option ℤ) {w : ℚ}
    (hw : 0 ≤ w) (hwc : IsCenti w) :
    0 ≤ date_score bd rd w ∧ date_score bd rd w ≤ w := by
  cases bd with
  | none =>
    simp only [date_score]
    exact ⟨le_refl 0, hw⟩
  | some b0 =>
    cases rd with
    | none =>
      refine ⟨round2_nonneg (by nlinarith), round2_le hwc (by nlinarith)⟩
    | some r0 =>
      simp only [date_score, MAX_DAY_DIFFERENCE]
      split_ifs with h1 h2
      · exact ⟨hw, le_refl w⟩
      · have habs : 0 ≤ |b0 - r0| := abs_nonneg _
        have hd1 : (1 : ℤ) ≤ |b0 - r0| := by omega
        have hq1 : (1 : ℚ) ≤ ((|b0 - r0| : ℤ) : ℚ) := by exact_mod_cast hd1
        have hq10 : ((|b0 - r0| : ℤ) : ℚ) ≤ 10 := by exact_mod_cast h2
        have hv0 : 0 ≤ w * (1 - ((|b0 - r0| : ℤ) : ℚ) / 10) := by
          have : ((|b0 - r0| : ℤ) : ℚ) / 10 ≤ 1 := by linarith
          nlinarith
        have hv1 : w * (1 - ((|b0 - r0| : ℤ) : ℚ) / 10) ≤ w := by
          have : 0 ≤ ((|b0 - r0| : ℤ) : ℚ) / 10 := by positivity
          nlinarith
        exact ⟨round2_nonneg hv0, round2_le hwc hv1⟩
      · exact ⟨le_refl 0, hw⟩

theorem reference_score_centi (k v d : Option String) :
    IsCenti (reference_score k v d 40) := by
  simp only [reference_score]
  split_ifs
  · exact ⟨0, by norm_num⟩
  · exact ⟨4000, by norm_num⟩
  · exact ⟨3000, by norm_num⟩
  · exact ⟨2000, by norm_num⟩
  · exact ⟨0, by norm_num⟩

theorem amount_score_centi (b t : Option ℚ) :
    IsCenti (amount_score b t 35 (1 / 100)) := by
  cases b with
  | none =>
    simp only [amount_score]
    exact ⟨0, by norm_num⟩
  | some b0 =>
    cases t with
    | none =>
      simp only [amount_score]
      exact ⟨0, by norm_num⟩
    | some t0 =>
      simp only [amount_score]
      split_ifs
      · exact ⟨3500, by norm_num⟩
      · exact ⟨0, by norm_num⟩
      · exact ⟨3500, by norm_num⟩
      · exact isCenti_round2 _
      · exact ⟨0, by norm_num⟩

theorem company_score_centi (sim : List Char → List Char → ℚ) (n1 n2 : Option String) :
    IsCenti (company_score sim n1 n2 15) := by
  simp only [company_score]
  split_ifs
  · exact ⟨0, by norm_num⟩
  · exact ⟨1500, by norm_num⟩
  · exact isCenti_round2 _
  · exact ⟨0, by norm_num⟩

theorem date_score_centi (bd rd : Option ℤ) :
    IsCenti (date_score bd rd 10) := by
  cases bd with
  | none =>
    simp only [date_score]
    exact ⟨0, by norm_num⟩
  | some b0 =>
    cases rd with
    | none => exact isCenti_round2 _
    | some r0 =>
      simp only [date_score]
      split_ifs
      · exact ⟨1000, by norm_num⟩
      · exact isCenti_round2 _
      · exact ⟨0, by norm_num⟩

/-! ## C7: the score combiner -/

/-- **C7.** For every scored pair, each rule's score lies in
`[0, max_score]`, `total_score` is the sum of the four rule scores,
`max_possible` is the sum of the four configured weights, and the
percentage is `total_score / max_possible × 100`, with percentage `0`
when `max_possible = 0`; `score_pair` is a pure function of its inputs. -/
theorem score_pair_spec (sim : List Char → List Char → ℚ)
    (t : BankTransaction) (r : RemittanceAdvice)
    (hsim : ∀ a b : List Char, 0 ≤ sim a b ∧ sim a b ≤ 100) :
    (0 ≤ (score_pair sim t r).reference.score ∧
      (score_pair sim t r).reference.score ≤ (score_pair sim t r).reference.max_score) ∧
    (0 ≤ (score_pair sim t r).amount.score ∧
      (score_pair sim t r).amount.score ≤ (score_pair sim t r).amount.max_score) ∧
    (0 ≤ (score_pair sim t r).company.score ∧
      (score_pair sim t r).company.score ≤ (score_pair sim t r).company.max_score) ∧
    (0 ≤ (score_pair sim t r).date.score ∧
      (score_pair sim t r).date.score ≤ (score_pair sim t r).date.max_score) ∧
    (score_pair sim t r).total_score =
      (score_pair sim t r).reference.score + (score_pair sim t r).amount.score +
        (score_pair sim t r).company.score + (score_pair sim t r).date.score ∧
    (score_pair sim t r).max_possible =
      (score_pair sim t r).reference.max_score + (score_pair sim t r).amount.max_score +
        (score_pair sim t r).company.max_score + (score_pair sim t r).date.max_score ∧
    (score_pair sim t r).percentage =
      (score_pair sim t r).total_score / (score_pair sim t r).max_possible * 100 ∧
    (∀ x : ScoreResult, x.max_possible = 0 → x.percentage = 0) := by
  have e1 : (score_pair sim t r).reference.score =
      reference_score t.kundenreferenz t.verwendungszweck r.document_number 40 := rfl
  have e1m : (score_pair sim t r).reference.max_score = 40 := rfl
  have e2 : (score_pair sim t r).amount.score =
      amount_score t.betrag r.total_net_amount 35 (1 / 100) := rfl
  have e2m : (score_pair sim t r).amount.max_score = 35 := rfl
  have e3 : (score_pair sim t r).company.score =
      company_score sim t.auftraggeber_empfaenger r.sender_name 15 := rfl
  have e3m : (score_pair sim t r).company.max_score = 15 := rfl
  have e4 : (score_pair sim t r).date.score =
      date_score t.buchungsdatum r.document_date 10 := rfl
  have e4m : (score_pair sim t r).date.max_score = 10 := rfl
  have c1 := reference_score_centi t.kundenreferenz t.verwendungszweck r.document_number
  have c2 := amount_score_centi t.betrag r.total_net_amount
  have c3 := company_score_centi sim t.auftraggeber_empfaenger r.sender_name
  have c4 := date_score_centi t.buchungsdatum r.document_date
  have csum : IsCenti ((score_pair sim t r).reference.score + (score_pair sim t r).amount.score +
      (score_pair sim t r).company.score + (score_pair sim t r).date.score) := by
    rw [e1, e2, e3, e4]
    exact ((c1.add c2).add c3).add c4
  have htot : (score_pair sim t r).total_score =
      (score_pair sim t r).reference.score + (score_pair sim t r).amount.score +
        (score_pair sim t r).company.score + (score_pair sim t r).date.score := by
    have hdef : (score_pair sim t r).total_score =
        round2 ((score_pair sim t r).reference.score + (score_pair sim t r).amount.score +
          (score_pair sim t r).company.score + (score_pair sim t r).date.score) := rfl
    rw [hdef, round2_eq_self csum]
  have hmax : (score_pair sim t r).max_possible = 100 := by
    have hdef : (score_pair sim t r).max_possible = round2 (40 + 35 + 15 + 10) := rfl
    rw [hdef]
    norm_num [round2]
  refine ⟨?_, ?_, ?_, ?_, htot, ?_, ?_, ?_⟩
  · rw [e1, e1m]
    exact reference_score_bounds _ _ _ (by norm_num)
  · rw [e2, e2m]
    exact amount_score_bounds _ _ (by norm_num) ⟨3500, by norm_num⟩ (by norm_num)
  · rw [e3, e3m]
    exact company_score_bounds sim _ _ (by norm_num) ⟨1500, by norm_num⟩
  · rw [e4, e4m]
    exact date_score_bounds _ _ (by norm_num) ⟨1000, by norm_num⟩
  · rw [hmax, e1m, e2m, e3m, e4m]
    norm_num
  · rw [ScoreResult.percentage, if_neg (by rw [hmax]; norm_num), hmax, htot]
    have hcancel : ((score_pair sim t r).reference.score + (score_pair sim t r).amount.score +
        (score_pair sim t r).company.score + (score_pair sim t r).date.score) / 100 * 100 =
        (score_pair sim t r).reference.score + (score_pair sim t r).amount.score +
          (score_pair sim t r).company.score + (score_pair sim t r).date.score := by
      field_simp
    rw [hcancel, round2_eq_self csum]
  · intro x hx
    simp [ScoreResult.percentage, hx]

/-- A trivial transaction/remittance pair for the witness. -/
def emptyTxn : BankTransaction :=
  { id := 0, buchungsdatum := none, betrag := none,
    auftraggeber_empfaenger := none, kundenreferenz := none,
    verwendungszweck := none, currency := none,
    match_status := MatchStatus.UNMATCHED }

/-- A trivial remittance for the witness. -/
def emptyRem : RemittanceAdvice :=
  { id := 0, document_number := none, sender_name := none,
    document_date := none, total_net_amount := none, currency := none,
    match_status := RemittanceStatus.UNMATCHED, line_items := [] }

/-- Witness for C7 at a concrete pair and a concrete similarity function. -/
theorem score_pair_spec_witness :
    (score_pair (fun _ _ => 0) emptyTxn emptyRem).total_score =
      (score_pair (fun _ _ => 0) emptyTxn emptyRem).reference.score +
        (score_pair (fun _ _ => 0) emptyTxn emptyRem).amount.score +
        (score_pair (fun _ _ => 0) emptyTxn emptyRem).company.score +
        (score_pair (fun _ _ => 0) emptyTxn emptyRem).date.score ∧
    (score_pair (fun _ _ => 0) emptyTxn emptyRem).percentage =
      (score_pair (fun _ _ => 0) emptyTxn emptyRem).total_score /
        (score_pair (fun _ _ => 0) emptyTxn emptyRem).max_possible * 100 := by
  have h := score_pair_spec (fun _ _ => 0) emptyTxn emptyRem
    (fun _ _ => ⟨le_refl 0, by norm_num⟩)
  exact ⟨h.2.2.2.2.1, h.2.2.2.2.2.2.1⟩

/-! ## C2: per-candidate threshold behaviour of the greedy walk -/

/-- **C2.** For every candidate reached in the ranked walk whose two sides
are still unconsumed: at or above the auto-match threshold a Match is
created, the payment and the remittance become `matched`, both ids are
consumed, and the kind is exact iff the reference rule scored its full
weight; else at or above the manual-review threshold a fuzzy Match is
created, the payment becomes `manual_review`, the remittance's status is
untouched, and both ids are consumed; else the state is unchanged. -/
theorem greedy_step_spec (s : Settings) (st : EngineState) (c : Candidate)
    (hT : c.txnId ∉ st.matched_txn_ids) (hR : c.remId ∉ st.matched_rem_ids)
    (href : 0 < c.score_result.reference.max_score) :
    (s.auto_match_threshold ≤ c.score_result.total_score →
      (greedyStep s st c).created_matches = st.created_matches ++
          [⟨c.txnId, c.remId, c.score_result.total_score, determine_match_type c.score_result⟩] ∧
      (greedyStep s st c).txn_status c.txnId = MatchStatus.MATCHED ∧
      (greedyStep s st c).rem_status c.remId = RemittanceStatus.MATCHED ∧
      c.txnId ∈ (greedyStep s st c).matched_txn_ids ∧
      c.remId ∈ (greedyStep s st c).matched_rem_ids ∧
      (determine_match_type c.score_result = MatchType.AUTO_EXACT ↔
        c.score_result.reference.score = c.score_result.reference.max_score)) ∧
    (¬ s.auto_match_threshold ≤ c.score_result.total_score →
      s.manual_review_threshold ≤ c.score_result.total_score →
      (greedyStep s st c).created_matches = st.created_matches ++
          [⟨c.txnId, c.remId, c.score_result.total_score, MatchType.AUTO_FUZZY⟩] ∧
      (greedyStep s st c).txn_status c.txnId = MatchStatus.MANUAL_REVIEW ∧
      (greedyStep s st c).rem_status = st.rem_status ∧
      c.txnId ∈ (greedyStep s st c).matched_txn_ids ∧
      c.remId ∈ (greedyStep s st c).matched_rem_ids) ∧
    (¬ s.auto_match_threshold ≤ c.score_result.total_score →
      ¬ s.manual_review_threshold ≤ c.score_result.total_score →
      greedyStep s st c = st) := by
  have hskip : ¬ (c.txnId ∈ st.matched_txn_ids ∨ c.remId ∈ st.matched_rem_ids) := by
    rintro (h | h)
    · exact hT h
    · exact hR h
  refine ⟨?_, ?_, ?_⟩
  · intro hauto
    rw [greedyStep, if_neg hskip, if_pos hauto]
    refine ⟨rfl, ?_, ?_, by simp, by simp, ?_⟩
    · simp [Function.update]
    · simp [Function.update]
    · constructor
      · intro hex
        by_contra hne
        rw [determine_match_type, if_neg] at hex
        · exact MatchType.noConfusion hex
        · rintro ⟨heq, _⟩
          exact hne heq
      · intro heq
        rw [determine_match_type, if_pos ⟨heq, href⟩]
  · intro hnauto hman
    rw [greedyStep, if_neg hskip, if_neg hnauto, if_pos hman]
    exact ⟨rfl, by simp [Function.update], rfl, by simp, by simp⟩
  · intro hnauto hnman
    rw [greedyStep, if_neg hskip, if_neg hnauto, if_neg hnman]

/-- A concrete auto-match candidate: total 90, reference 40 of 40. -/
def candidate90 : Candidate :=
  { txnId := 1
    remId := 2
    score_result :=
      { total_score := 90
        max_possible := 100
        reference := ⟨40, 40⟩
        amount := ⟨35, 35⟩
        company := ⟨10, 15⟩
        date := ⟨5, 10⟩ } }

/-- Witness for C2: from the initial state, the candidate with total 90 is
auto-matched, both statuses are set, and the kind is exact. -/
theorem greedy_step_spec_witness :
    (greedyStep get_settings
        (initEngineState (fun _ => MatchStatus.UNMATCHED) (fun _ => RemittanceStatus.UNMATCHED))
        candidate90).txn_status 1 = MatchStatus.MATCHED ∧
    (greedyStep get_settings
        (initEngineState (fun _ => MatchStatus.UNMATCHED) (fun _ => RemittanceStatus.UNMATCHED))
        candidate90).rem_status 2 = RemittanceStatus.MATCHED ∧
    determine_match_type candidate90.score_result = MatchType.AUTO_EXACT := by
  have h := (greedy_step_spec get_settings
      (initEngineState (fun _ => MatchStatus.UNMATCHED) (fun _ => RemittanceStatus.UNMATCHED))
      candidate90 (by simp [initEngineState]) (by simp [initEngineState])
      (by norm_num [candidate90])).1
    (by norm_num [candidate90, get_settings])
  exact ⟨h.2.1, h.2.2.1, h.2.2.2.2.2.mpr (by norm_num [candidate90])⟩

/-! ## C1: no id appears in two matches of one run -/

/-- The invariant the greedy loop maintains: every created match's ids are
consumed, and no id repeats among created matches. -/
def GreedyInv (st : EngineState) : Prop :=
  (∀ m ∈ st.created_matches,
    m.transaction_id ∈ st.matched_txn_ids ∧ m.remittance_id ∈ st.matched_rem_ids) ∧
  (st.created_matches.map MatchRecord.transaction_id).Nodup ∧
  (st.created_matches.map MatchRecord.remittance_id).Nodup

theorem greedyStep_inv (s : Settings) (st : EngineState) (c : Candidate)
    (h : GreedyInv st) : GreedyInv (greedyStep s st c) := by
  obtain ⟨hmem, hT, hR⟩ := h
  by_cases hskip : c.txnId ∈ st.matched_txn_ids ∨ c.remId ∈ st.matched_rem_ids
  · rw [greedyStep, if_pos hskip]
    exact ⟨hmem, hT, hR⟩
  · have hT0 : c.txnId ∉ st.matched_txn_ids := fun h0 => hskip (Or.inl h0)
    have hR0 : c.remId ∉ st.matched_rem_ids := fun h0 => hskip (Or.inr h0)
    have hnewT : c.txnId ∉ st.created_matches.map MatchRecord.transaction_id := by
      intro h0
      obtain ⟨m, hm, hmid⟩ := List.mem_map.mp h0
      exact hT0 (hmid ▸ (hmem m hm).1)
    have hnewR : c.remId ∉ st.created_matches.map MatchRecord.remittance_id := by
      intro h0
      obtain ⟨m, hm, hmid⟩ := List.mem_map.mp h0
      exact hR0 (hmid ▸ (hmem m hm).2)
    have hstep : ∀ mt : MatchType,
        GreedyInv
          { matched_txn_ids := c.txnId :: st.matched_txn_ids
            matched_rem_ids := c.remId :: st.matched_rem_ids
            created_matches := st.created_matches ++
              [⟨c.txnId, c.remId, c.score_result.total_score, mt⟩]
            txn_status := Function.update st.txn_status c.txnId MatchStatus.MATCHED
            rem_status := Function.update st.rem_status c.remId RemittanceStatus.MATCHED
            auto_matched := st.auto_matched + 1
            manual_review := st.manual_review } := by
      intro mt
      refine ⟨?_, ?_, ?_⟩
      · intro m hm
        rcases List.mem_append.mp hm with hm1 | hm2
        · exact ⟨List.mem_cons_of_mem _ (hmem m hm1).1,
            List.mem_cons_of_mem _ (hmem m hm1).2⟩
        · rcases List.mem_singleton.mp hm2 with rfl
          exact ⟨List.mem_cons_self _ _, List.mem_cons_self _ _⟩
      · rw [List.map_append]
        simp only [List.map_cons, List.map_nil]
        rw [List.nodup_append]
        exact ⟨hT, List.nodup_singleton _, by simpa using hnewT⟩
      · rw [List.map_append]
        simp only [List.map_cons, List.map_nil]
        rw [List.nodup_append]
        exact ⟨hR, List.nodup_singleton _, by simpa using hnewR⟩
    rw [greedyStep, if_neg hskip]
    split_ifs with hauto hman
    · exact hstep _
    · refine ⟨?_, ?_, ?_⟩
      · intro m hm
        rcases List.mem_append.mp hm with hm1 | hm2
        · exact ⟨List.mem_cons_of_mem _ (hmem m hm1).1,
            List.mem_cons_of_mem _ (hmem m hm1).2⟩
        · rcases List.mem_singleton.mp hm2 with rfl
          exact ⟨List.mem_cons_self _ _, List.mem_cons_self _ _⟩
      · rw [List.map_append]
        simp only [List.map_cons, List.map_nil]
        rw [List.nodup_append]
        exact ⟨hT, List.nodup_singleton _, by simpa using hnewT⟩
      · rw [List.map_append]
        simp only [List.map_cons, List.map_nil]
        rw [List.nodup_append]
        exact ⟨hR, List.nodup_singleton _, by simpa using hnewR⟩
    · exact ⟨hmem, hT, hR⟩

theorem run_greedy_inv (s : Settings) (cs : List Candidate) (st : EngineState)
    (h : GreedyInv st) : GreedyInv (run_greedy s st cs) := by
  induction cs generalizing st with
  | nil => exact h
  | cons c rest ih => exact ih _ (greedyStep_inv s st c h)

/-- **C1.** For every matching run, no payment id and no remittance id
appears in more than one Match created during that run: the lists of
transaction ids and of remittance ids of the created matches are both
duplicate-free, for any ranked candidate list and any initial statuses. -/
theorem run_matching_no_duplicate_ids (s : Settings) (f : ℕ → MatchStatus)
    (g : ℕ → RemittanceStatus) (cs : List Candidate) :
    ((run_greedy s (initEngineState f g) cs).created_matches.map
      MatchRecord.transaction_id).Nodup ∧
    ((run_greedy s (initEngineState f g) cs).created_matches.map
      MatchRecord.remittance_id).Nodup := by
  have h := run_greedy_inv s cs (initEngineState f g)
    ⟨by intro m hm; exact absurd hm (by simp [initEngineState]),
      by simp [initEngineState], by simp [initEngineState]⟩
  exact ⟨h.2.1, h.2.2⟩

/-! ## C8: sequential line numbers in the generator -/

theorem create_entry_from_line_item_line (s : Settings) (m : MatchRow)
    (li : RemittanceLineItem) (ln : ℕ) (e : JournalEntry)
    (h : create_entry_from_line_item s m li ln = some e) : e.line_number = ln := by
  cases hz : li.zahlbetrag with
  | none => simp [create_entry_from_line_item, hz] at h
  | some z =>
    cases hb : m.transaction.betrag with
    | none => simp [create_entry_from_line_item, hz, hb] at h
    | some b =>
      simp only [create_entry_from_line_item, hz, hb, Option.some.injEq] at h
      rw [← h]

theorem create_entry_from_transaction_line (s : Settings) (t : BankTransaction)
    (ln : ℕ) (e : JournalEntry)
    (h : create_entry_from_transaction s t ln = some e) : e.line_number = ln := by
  cases hb : t.betrag with
  | none => simp [create_entry_from_transaction, hb] at h
  | some b =>
    simp only [create_entry_from_transaction, hb, Option.some.injEq] at h
    rw [← h]

theorem entries_for_items_lines (s : Settings) (m : MatchRow)
    (items : List RemittanceLineItem) (ln : ℕ) :
    (entries_for_items s m items ln).1.map JournalEntry.line_number =
      List.range' ln (entries_for_items s m items ln).1.length ∧
    (entries_for_items s m items ln).2.1 =
      ln + (entries_for_items s m items ln).1.length := by
  induction items generalizing ln with
  | nil => simp [entries_for_items]
  | cons li rest ih =>
    cases hce : create_entry_from_line_item s m li ln with
    | none => simp [entries_for_items, hce]
    | some e =>
      obtain ⟨ih1, ih2⟩ := ih (ln + 1)
      have hl := create_entry_from_line_item_line s m li ln e hce
      constructor
      · simp only [entries_for_items, hce, List.map_cons, List.length_cons]
        rw [hl, ih1, List.range'_succ]
      · simp only [entries_for_items, hce, List.length_cons]
        omega

theorem matched_path_lines (s : Settings) (ms : List MatchRow) (ln : ℕ) :
    (matched_path s ms ln).1.map JournalEntry.line_number =
      List.range' ln (matched_path s ms ln).1.length ∧
    (matched_path s ms ln).2.1 = ln + (matched_path s ms ln).1.length := by
  induction ms generalizing ln with
  | nil => simp [matched_path]
  | cons m rest ih =>
    obtain ⟨h11, h12⟩ := entries_for_items_lines s m m.remittance.line_items ln
    obtain ⟨h21, h22⟩ := ih (entries_for_items s m m.remittance.line_items ln).2.1
    constructor
    · simp only [matched_path, List.map_append, List.length_append]
      rw [h11, h21, h12]
      rw [show (entries_for_items s m m.remittance.line_items ln).1.length +
            (matched_path s rest (ln + (entries_for_items s m m.remittance.line_items ln).1.length)).1.length =
          (matched_path s rest (ln + (entries_for_items s m m.remittance.line_items ln).1.length)).1.length +
            (entries_for_items s m m.remittance.line_items ln).1.length from Nat.add_comm _ _]
      exact List.range'_append_1 ln _ _
    · simp only [matched_path, List.length_append]
      omega

theorem unmatched_path_lines (s : Settings) (ts : List BankTransaction) :
    ∀ (prior : List JournalEntry) (ln : ℕ),
      (unmatched_path s ts prior ln).1.map JournalEntry.line_number =
        List.range' ln (unmatched_path s ts prior ln).1.length ∧
      (unmatched_path s ts prior ln).2.1 =
        ln + (unmatched_path s ts prior ln).1.length := by
  induction ts with
  | nil => intro prior ln; simp [unmatched_path]
  | cons t rest ih =>
    intro prior ln
    by_cases hdup : prior.any (is_existing_for t)
    · simpa [unmatched_path, hdup] using ih prior ln
    · cases hce : create_entry_from_transaction s t ln with
      | none => simpa [unmatched_path, hdup, hce] using ih prior ln
      | some e =>
        obtain ⟨ih1, ih2⟩ := ih (prior ++ [e]) (ln + 1)
        have hl := create_entry_from_transaction_line s t ln e hce
        have hgoal : unmatched_path s (t :: rest) prior ln =
            (e :: (unmatched_path s rest (prior ++ [e]) (ln + 1)).1,
              (unmatched_path s rest (prior ++ [e]) (ln + 1)).2.1,
              (unmatched_path s rest (prior ++ [e]) (ln + 1)).2.2.1 + 1,
              (unmatched_path s rest (prior ++ [e]) (ln + 1)).2.2.2) := by
          simp only [unmatched_path, hce]
          rw [if_neg hdup]
        rw [hgoal]
        constructor
        · simp only [List.map_cons, List.length_cons]
          rw [hl, ih1, List.range'_succ]
        · simp only [List.length_cons]
          omega

/-- Concatenating two blocks of postings whose line numbers are consecutive
ranges yields one consecutive range. -/
theorem lines_append (l1 l2 : List JournalEntry) (a : ℕ)
    (h1 : l1.map JournalEntry.line_number = List.range' a l1.length)
    (h2 : l2.map JournalEntry.line_number = List.range' (a + l1.length) l2.length) :
    (l1 ++ l2).map JournalEntry.line_number = List.range' a (l1 ++ l2).length := by
  rw [List.map_append, h1, h2, List.length_append,
    show l1.length + l2.length = l2.length + l1.length from Nat.add_comm _ _]
  exact List.range'_append_1 a _ _

/-- **C8.** Within one generation run, the line numbers of the postings
created (matched path first, then the unmatched path, one shared counter)
form exactly the sequence 1, 2, …, `entries_created`, in creation order —
so they are unique and monotonically increasing and never reset mid-run. -/
theorem generator_line_numbers (store : Store) (inc : Bool) :
    ((generate_journal_entries store inc).2.entries.drop store.entries.length).map
        JournalEntry.line_number =
      List.range' 1 (generate_journal_entries store inc).1.entries_created := by
  simp only [generate_journal_entries, List.drop_left]
  cases inc with
  | false =>
    simp only [if_neg (Bool.false_ne_true)]
    obtain ⟨h1, _⟩ := matched_path_lines get_settings
      (store.match_rows.filter
        (fun m => !(store.entries.any (fun e => e.match_id == some m.id)))) 1
    simpa using h1
  | true =>
    simp only [if_pos rfl]
    obtain ⟨h11, h12⟩ := matched_path_lines get_settings
      (store.match_rows.filter
        (fun m => !(store.entries.any (fun e => e.match_id == some m.id)))) 1
    obtain ⟨h21, _⟩ := unmatched_path_lines get_settings
      (store.payments.filter (fun t => t.match_status == MatchStatus.UNMATCHED))
      (store.entries ++ (matched_path get_settings
        (store.match_rows.filter
          (fun m => !(store.entries.any (fun e => e.match_id == some m.id)))) 1).1)
      (matched_path get_settings
        (store.match_rows.filter
          (fun m => !(store.entries.any (fun e => e.match_id == some m.id)))) 1).2.1
    refine lines_append _ _ 1 h11 ?_
    rw [← h12]
    exact h21

/-! ## C3: the Ledger Generator is not idempotent (code bug) -/

/-- An unmatched payment with no customer reference but a non-empty
free-text purpose: the created posting's `item_text` falls back to the
purpose, while the duplicate guard queries for
`item_text == (kundenreferenz or "") == ""`. -/
def purposeOnlyPayment : BankTransaction :=
  { id := 1
    buchungsdatum := some 5
    betrag := some 100
    auftraggeber_empfaenger := none
    kundenreferenz := none
    verwendungszweck := some "ABC"
    currency := none
    match_status := MatchStatus.UNMATCHED }

/-- A store holding only `purposeOnlyPayment`, no matches, no entries. -/
def purposeOnlyStore : Store :=
  { payments := [purposeOnlyPayment], match_rows := [], entries := [] }

/-- **C3 (failing).** On `purposeOnlyStore`, the first generator run creates
one posting, and a second run with no new Matches creates another one
(`entries_created = 1`, not `0`): the duplicate guard looks for
`item_text = ""` while the stored posting carries `item_text = "ABC"`,
so the guard misses and idempotence fails. -/
theorem generator_not_idempotent :
    (generate_journal_entries purposeOnlyStore true).1.entries_created = 1 ∧
    (generate_journal_entries (generate_journal_entries purposeOnlyStore true).2
        true).1.entries_created = 1 := by
  decide

end CashApp
